import Mathlib

/-!
Verification of the bma-monitoring signal-to-state pipeline.

Shallow embedding of the two monitor variants:
* `src/monitor_semaforo_TCS.py` — TCS34725 sensor path: nearest-reference
  classification (`get_instant_status`), buffer analysis
  (`analyze_state_buffer`), persistence gate and offline queue.
* `src/monitor_semaforo.py` — camera path: threshold classification
  (`get_visual_status`) and its persistence gate.

Machine reals: the Python code compares small nonnegative fractions
(`spento_count / len(buffer) >= 0.10`) and square roots of integer sums of
squares.  For the value ranges the program produces (buffer length ≤ 20,
channels ≤ 255) IEEE-double comparison agrees with exact rational/integer
comparison, so the embedding uses `ℚ`/`ℤ` with exact comparisons and, for
Euclidean distances, compares the squares (x ↦ x ^ 0.5 is strictly
monotone on the occurring values).
-/

namespace BmaMonitor

/-- The instantaneous labels produced by `get_instant_status` in
`monitor_semaforo_TCS.py`: the Python function only ever returns the strings
"ROSSO", "VERDE" or "SPENTO". -/
inductive InstantLabel : Type
  | ROSSO
  | VERDE
  | SPENTO
deriving DecidableEq, Repr

/-- The composite states returned by `analyze_state_buffer`:
"ROSSO", "VERDE", "ATTESA" (waiting/blink) or "SPENTO". -/
inductive CompositeState : Type
  | ROSSO
  | VERDE
  | ATTESA
  | SPENTO
deriving DecidableEq, Repr

/-- `BLINK_THRESHOLD_PERCENT = 0.10` from `monitor_semaforo_TCS.py`. -/
def BLINK_THRESHOLD_PERCENT : ℚ := 10 / 100

/-- `MIN_TRANSITIONS_FOR_BLINK = 2` from `monitor_semaforo_TCS.py`. -/
def MIN_TRANSITIONS_FOR_BLINK : ℕ := 2

/-- `BUFFER_SIZE = 20` from `monitor_semaforo_TCS.py`. -/
def BUFFER_SIZE : ℕ := 20

/-- The transition-counting loop inside `analyze_state_buffer`:
`for i in range(len(buffer) - 1)` counts adjacent pairs that are
VERDE→SPENTO or SPENTO→VERDE. -/
def count_transitions : List InstantLabel → ℕ
  | a :: b :: rest =>
      (if (a = .VERDE ∧ b = .SPENTO) ∨ (a = .SPENTO ∧ b = .VERDE) then 1 else 0)
        + count_transitions (b :: rest)
  | _ => 0

/-- `analyze_state_buffer` from `monitor_semaforo_TCS.py` (lines 197–242):
any ROSSO wins outright; otherwise, with VERDE present, the SPENTO fraction
against `BLINK_THRESHOLD_PERCENT` selects between solid VERDE and the
transition count check, which yields ATTESA on a real blink and otherwise a
majority pick between VERDE and SPENTO. -/
def analyze_state_buffer (buffer : List InstantLabel) : CompositeState :=
  let rosso_count := buffer.count .ROSSO
  let verde_count := buffer.count .VERDE
  let spento_count := buffer.count .SPENTO
  if 0 < rosso_count then
    .ROSSO
  else if 0 < verde_count then
    let percent_spento : ℚ := (spento_count : ℚ) / (buffer.length : ℚ)
    if BLINK_THRESHOLD_PERCENT ≤ percent_spento then
      if MIN_TRANSITIONS_FOR_BLINK ≤ count_transitions buffer then
        .ATTESA
      else if spento_count < verde_count then
        .VERDE
      else
        .SPENTO
    else
      .VERDE
  else
    .SPENTO

/-- Every buffer entry is one of the three instantaneous labels, so the three
counts partition the buffer. -/
theorem count_partition (buffer : List InstantLabel) :
    buffer.count .ROSSO + buffer.count .VERDE + buffer.count .SPENTO
      = buffer.length := by
  induction buffer with
  | nil => rfl
  | cons a rest ih =>
      cases a <;> simp [List.count_cons, ih] <;> omega

theorem blink_candidate_iff (buffer : List InstantLabel)
    (hlen : 0 < buffer.length) :
    BLINK_THRESHOLD_PERCENT ≤ (buffer.count InstantLabel.SPENTO : ℚ) / (buffer.length : ℚ)
      ↔ buffer.length ≤ 10 * buffer.count InstantLabel.SPENTO := by
  rw [BLINK_THRESHOLD_PERCENT,
    div_le_div_iff₀ (by norm_num) (by exact_mod_cast hlen)]
  constructor
  · intro h
    have h10 : (10 : ℚ) * ((buffer.count InstantLabel.SPENTO : ℚ) * 100)
        = 100 * ((10 : ℚ) * buffer.count InstantLabel.SPENTO) := by ring
    have := mul_le_mul_of_nonneg_left h (by norm_num : (0:ℚ) ≤ 10)
    have hq : (buffer.length : ℚ) * 10 ≤ (10 * buffer.count InstantLabel.SPENTO : ℕ) * 10 := by
      push_cast
      nlinarith
    exact_mod_cast le_of_mul_le_mul_right hq (by norm_num)
  · intro h
    have hq : (buffer.length : ℚ) ≤ (10 : ℚ) * buffer.count InstantLabel.SPENTO := by
      exact_mod_cast h
    nlinarith

/-- Natural-number restatement of `analyze_state_buffer`: the rational
fraction test `0.10 ≤ spento/len` becomes `len ≤ 10 * spento` (the division
is only reached when VERDE is present, hence on a nonempty buffer). -/
theorem analyze_state_buffer_eq (buffer : List InstantLabel) :
    analyze_state_buffer buffer =
      if 0 < buffer.count .ROSSO then .ROSSO
      else if 0 < buffer.count .VERDE then
        if buffer.length ≤ 10 * buffer.count .SPENTO then
          if MIN_TRANSITIONS_FOR_BLINK ≤ count_transitions buffer then .ATTESA
          else if buffer.count .SPENTO < buffer.count .VERDE then .VERDE
          else .SPENTO
        else .VERDE
      else .SPENTO := by
  unfold analyze_state_buffer
  by_cases hr : 0 < buffer.count InstantLabel.ROSSO
  · simp [hr]
  · by_cases hv : 0 < buffer.count InstantLabel.VERDE
    · have hlen : 0 < buffer.length := by
        have := List.count_le_length (l := buffer) (a := InstantLabel.VERDE)
        omega
      simp only [hr, hv, if_true, if_false, blink_candidate_iff buffer hlen]
    · simp [hr, hv]

theorem analyze_red_of_pos (buffer : List InstantLabel)
    (h : 0 < buffer.count .ROSSO) :
    analyze_state_buffer buffer = .ROSSO := by
  rw [analyze_state_buffer_eq, if_pos h]

/-- C1: every buffer containing at least 3 ROSSO instantaneous labels is
analyzed as composite ROSSO, whatever the remaining entries are (the code
returns ROSSO as soon as the ROSSO count is positive). -/
theorem C1_red_priority (buffer : List InstantLabel)
    (h : 3 ≤ buffer.count .ROSSO) :
    analyze_state_buffer buffer = .ROSSO :=
  analyze_red_of_pos buffer (by omega)

theorem C1_red_priority_witness :
    3 ≤ (([.ROSSO, .ROSSO, .ROSSO, .VERDE, .SPENTO] : List InstantLabel).count .ROSSO)
      ∧ analyze_state_buffer [.ROSSO, .ROSSO, .ROSSO, .VERDE, .SPENTO] = .ROSSO :=
  ⟨by decide, C1_red_priority [.ROSSO, .ROSSO, .ROSSO, .VERDE, .SPENTO] (by decide)⟩

/-- C10: a single ROSSO sample already forces the composite to ROSSO — the
code's rule is `rosso_count > 0`, with no glitch floor. -/
theorem C10_single_red (buffer : List InstantLabel)
    (h : 1 ≤ buffer.count .ROSSO) :
    analyze_state_buffer buffer = .ROSSO :=
  analyze_red_of_pos buffer (by omega)

theorem C10_single_red_witness :
    1 ≤ (([.VERDE, .ROSSO, .SPENTO] : List InstantLabel).count .ROSSO)
      ∧ analyze_state_buffer [.VERDE, .ROSSO, .SPENTO] = .ROSSO :=
  ⟨by decide, C10_single_red [.VERDE, .ROSSO, .SPENTO] (by decide)⟩

/-- A 10-entry buffer with one VERDE amid SPENTO: OFF proportion 0.9 yet the
code classifies it as a blink (two VERDE/SPENTO transitions). -/
def mostly_off_buffer : List InstantLabel :=
  [.SPENTO, .VERDE] ++ List.replicate 8 .SPENTO

/-- A 10-entry buffer with one SPENTO then nine VERDE: GREEN proportion 0.9
yet the transition count reaches the blink minimum. -/
def mostly_green_buffer : List InstantLabel :=
  [.VERDE, .SPENTO] ++ List.replicate 8 .VERDE

/-- C2 counterexample: a buffer with zero ROSSO and OFF proportion 9/10
(≥ any steady-state fraction ≤ 0.9) is analyzed as ATTESA, not SPENTO,
because its two VERDE/SPENTO transitions trigger the blink rule. -/
theorem C2_steady_state_counterexample :
    mostly_off_buffer.count .ROSSO = 0
      ∧ 9 * mostly_off_buffer.length ≤ 10 * mostly_off_buffer.count .SPENTO
      ∧ analyze_state_buffer mostly_off_buffer = .ATTESA := by
  refine ⟨by decide, by decide, ?_⟩
  rw [analyze_state_buffer_eq]
  decide

/-- C2 (amended): the code has no steady-state fraction; with zero ROSSO the
9/10-proportion conclusions hold only when the buffer additionally shows
fewer than `MIN_TRANSITIONS_FOR_BLINK` VERDE/SPENTO transitions. -/
theorem C2_steady_state (buffer : List InstantLabel)
    (hr : buffer.count .ROSSO = 0)
    (ht : count_transitions buffer < MIN_TRANSITIONS_FOR_BLINK) :
    (9 * buffer.length ≤ 10 * buffer.count .SPENTO →
        analyze_state_buffer buffer = .SPENTO)
      ∧ (buffer ≠ [] → 9 * buffer.length ≤ 10 * buffer.count .VERDE →
        analyze_state_buffer buffer = .VERDE) := by
  have hpart := count_partition buffer
  have ht2 : count_transitions buffer < 2 := ht
  rw [analyze_state_buffer_eq]
  simp only [MIN_TRANSITIONS_FOR_BLINK]
  refine ⟨fun h9 => ?_, fun hne h9 => ?_⟩
  · split_ifs <;> first | rfl | omega
  · have hlen : 0 < buffer.length := List.length_pos.mpr hne
    split_ifs <;> first | rfl | omega

theorem C2_steady_state_witness :
    analyze_state_buffer (List.replicate 9 .SPENTO ++ [.VERDE]) = .SPENTO
      ∧ analyze_state_buffer ([.SPENTO] ++ List.replicate 9 .VERDE) = .VERDE :=
  ⟨(C2_steady_state (List.replicate 9 .SPENTO ++ [.VERDE])
      (by decide) (by decide)).1 (by decide),
   (C2_steady_state ([.SPENTO] ++ List.replicate 9 .VERDE)
      (by decide) (by decide)).2 (by decide) (by decide)⟩

/-- Ten VERDE followed by ten SPENTO: a half/half mix with a single
transition. -/
def block_mix_buffer : List InstantLabel :=
  List.replicate 10 .VERDE ++ List.replicate 10 .SPENTO

/-- VERDE and SPENTO alternating, 20 entries. -/
def alternating_buffer : List InstantLabel :=
  (List.replicate 10 [InstantLabel.VERDE, InstantLabel.SPENTO]).flatten

/-- C3 counterexample: ten VERDE then ten SPENTO has no ROSSO, contains both
VERDE and SPENTO, and meets neither 0.9 steady-state proportion, yet the
code analyzes it as SPENTO (one transition only), not ATTESA. -/
theorem C3_blink_counterexample :
    block_mix_buffer.count .ROSSO = 0
      ∧ 0 < block_mix_buffer.count .VERDE
      ∧ 0 < block_mix_buffer.count .SPENTO
      ∧ 10 * block_mix_buffer.count .VERDE < 9 * block_mix_buffer.length
      ∧ 10 * block_mix_buffer.count .SPENTO < 9 * block_mix_buffer.length
      ∧ analyze_state_buffer block_mix_buffer = .SPENTO := by
  refine ⟨by decide, by decide, by decide, by decide, by decide, ?_⟩
  rw [analyze_state_buffer_eq]
  decide

/-- C3 (amended): ATTESA requires, besides zero ROSSO and VERDE present, an
OFF share of at least `BLINK_THRESHOLD_PERCENT` and at least
`MIN_TRANSITIONS_FOR_BLINK` VERDE/SPENTO transitions — the ordering of the
buffer matters.  The alternating 10×VERDE/10×SPENTO buffer is ATTESA, and
18 VERDE followed by 2 SPENTO is VERDE. -/
theorem C3_blink (buffer : List InstantLabel)
    (hr : buffer.count .ROSSO = 0)
    (hv : 0 < buffer.count .VERDE)
    (hs : buffer.length ≤ 10 * buffer.count .SPENTO)
    (ht : MIN_TRANSITIONS_FOR_BLINK ≤ count_transitions buffer) :
    analyze_state_buffer buffer = .ATTESA
      ∧ analyze_state_buffer alternating_buffer = .ATTESA
      ∧ analyze_state_buffer (List.replicate 18 .VERDE ++ List.replicate 2 .SPENTO)
          = .VERDE := by
  refine ⟨?_, by rw [analyze_state_buffer_eq]; decide,
    by rw [analyze_state_buffer_eq]; decide⟩
  rw [analyze_state_buffer_eq]
  split_ifs <;> first | rfl | omega

theorem C3_blink_witness :
    analyze_state_buffer [.VERDE, .SPENTO, .VERDE, .SPENTO] = .ATTESA :=
  (C3_blink [.VERDE, .SPENTO, .VERDE, .SPENTO]
    (by decide) (by decide) (by decide) (by decide)).1

/-- An averaged RGB reading, the dict `{"R": .., "G": .., "B": ..}` of
`leggi_rgb_stabilizzato`. -/
structure RGB where
  R : ℤ
  G : ℤ
  B : ℤ
deriving DecidableEq, Repr

/-- The three reference colors of the calibration file: keys `"verde"`,
`"non_verde"` (red) and `"buio"` (dark/off). -/
structure CalibrationData where
  verde : RGB
  non_verde : RGB
  buio : RGB
deriving DecidableEq, Repr

/-- The square of `calcola_distanza_rgb` from `monitor_semaforo_TCS.py`.
The Python function returns the Euclidean distance
`(dr² + dg² + db²) ** 0.5`; `get_instant_status` only ever compares
distances, and the square root is strictly monotone on the occurring
values, so comparing the integer squares is the same comparison. -/
def calcola_distanza_rgb (rgb1 rgb2 : RGB) : ℤ :=
  (rgb1.R - rgb2.R) ^ 2 + (rgb1.G - rgb2.G) ^ 2 + (rgb1.B - rgb2.B) ^ 2

/-- `get_instant_status` from `monitor_semaforo_TCS.py` (lines 170–194):
`min(distanze, key=distanze.get)` over the insertion-ordered dict
`{"VERDE": dist_verde, "ROSSO": dist_rosso, "SPENTO": dist_buio}` returns
the first key of minimal distance, so ties favour VERDE over ROSSO over
SPENTO. -/
def get_instant_status (calib : CalibrationData) (rgb_medio : RGB) : InstantLabel :=
  let dist_verde := calcola_distanza_rgb rgb_medio calib.verde
  let dist_rosso := calcola_distanza_rgb rgb_medio calib.non_verde
  let dist_buio := calcola_distanza_rgb rgb_medio calib.buio
  if dist_verde ≤ dist_rosso then
    if dist_verde ≤ dist_buio then .VERDE else .SPENTO
  else
    if dist_rosso ≤ dist_buio then .ROSSO else .SPENTO

/-- The calibration profile of the spec's classifier scenario:
GREEN reference (0,200,0), RED reference (200,0,0), OFF reference (0,0,0). -/
def spec_profile : CalibrationData :=
  ⟨⟨0, 200, 0⟩, ⟨200, 0, 0⟩, ⟨0, 0, 0⟩⟩

/-- A calibration whose VERDE reference is itself a dim color. -/
def dim_green_profile : CalibrationData :=
  ⟨⟨10, 10, 10⟩, ⟨200, 0, 0⟩, ⟨100, 100, 100⟩⟩

/-- C6 counterexample: `get_instant_status` applies no luminosity floor.
The sample (10,10,10) has total luminosity 30 < 50, yet with
`dim_green_profile` it classifies as VERDE (its nearest reference), not
SPENTO as the claimed gate would force. -/
theorem C6_luminosity_counterexample :
    (10 : ℤ) + 10 + 10 < 50
      ∧ get_instant_status dim_green_profile ⟨10, 10, 10⟩ = .VERDE := by
  constructor
  · decide
  · decide

/-- C6 (amended): the sensor-path classifier has no minimum-luminosity
gate; the label is always the nearest calibrated reference (ties broken
VERDE, then ROSSO, then SPENTO).  In the spec's scenario the sample
(5,5,5) classifies SPENTO only because the OFF reference (0,0,0) is
nearest, and (0,190,10) classifies VERDE. -/
theorem C6_nearest_reference :
    (∀ (calib : CalibrationData) (rgb : RGB),
      (get_instant_status calib rgb = .VERDE ↔
          calcola_distanza_rgb rgb calib.verde ≤ calcola_distanza_rgb rgb calib.non_verde
            ∧ calcola_distanza_rgb rgb calib.verde ≤ calcola_distanza_rgb rgb calib.buio)
        ∧ (get_instant_status calib rgb = .ROSSO ↔
          calcola_distanza_rgb rgb calib.non_verde < calcola_distanza_rgb rgb calib.verde
            ∧ calcola_distanza_rgb rgb calib.non_verde ≤ calcola_distanza_rgb rgb calib.buio)
        ∧ (get_instant_status calib rgb = .SPENTO ↔
          calcola_distanza_rgb rgb calib.buio < calcola_distanza_rgb rgb calib.verde
            ∧ calcola_distanza_rgb rgb calib.buio < calcola_distanza_rgb rgb calib.non_verde))
      ∧ get_instant_status spec_profile ⟨5, 5, 5⟩ = .SPENTO
      ∧ get_instant_status spec_profile ⟨0, 190, 10⟩ = .VERDE := by
  refine ⟨fun calib rgb => ?_, by decide, by decide⟩
  simp only [get_instant_status]
  split_ifs <;> simp <;> omega

/-- `leggi_rgb_attuale` from `monitor_semaforo_TCS.py` (lines 129–142).
Each sensor property access may raise: `color_rgb_bytes` is `none` when the
first read raises, `color_raw` is `none` when the fallback read raises.  A
short `color_rgb_bytes` result (length < 3) also falls through to the raw
path; if both fail the function returns (0,0,0) — there is no dedicated
error value. -/
def leggi_rgb_fallback : Option (ℤ × ℤ × ℤ) → ℤ × ℤ × ℤ
  | some (r, g, b) => (min 255 (r / 256), min 255 (g / 256), min 255 (b / 256))
  | none => (0, 0, 0)

def leggi_rgb_attuale (color_rgb_bytes : Option (List ℤ))
    (color_raw : Option (ℤ × ℤ × ℤ)) : ℤ × ℤ × ℤ :=
  match color_rgb_bytes with
  | some result =>
      if 3 ≤ result.length then (result.getD 0 0, result.getD 1 0, result.getD 2 0)
      else leggi_rgb_fallback color_raw
  | none => leggi_rgb_fallback color_raw

/-- `visual_state_buffer.append(stato_corrente)` on the
`deque(maxlen=BUFFER_SIZE)` of the main loop: the new label always enters,
evicting the oldest entry when the buffer is full. -/
def buffer_append (maxlen : ℕ) (buffer : List InstantLabel) (l : InstantLabel) :
    List InstantLabel :=
  let b := buffer ++ [l]
  if maxlen < b.length then b.drop (b.length - maxlen) else b

/-- C8 counterexample: when both hardware reads fail the code returns the
ordinary sample (0,0,0) — there is no ERROR_READ label — the sample is
classified like any other (SPENTO under `spec_profile`), and the main loop
still appends the resulting label to a full buffer, evicting the oldest
entry.  The cycle is not skipped. -/
theorem C8_read_error_counterexample :
    leggi_rgb_attuale none none = (0, 0, 0)
      ∧ get_instant_status spec_profile ⟨0, 0, 0⟩ = .SPENTO
      ∧ buffer_append BUFFER_SIZE (List.replicate 20 .VERDE) .SPENTO
          = List.replicate 19 .VERDE ++ [.SPENTO] := by
  refine ⟨by decide, by decide, ?_⟩
  decide

/-- C8 (amended): a failed hardware read yields the fallback sample
(0,0,0), which is classified by nearest reference like any other reading
(SPENTO under `spec_profile`), and every cycle — failed read included —
pushes its label into the stability buffer. -/
theorem C8_read_failure_not_skipped :
    leggi_rgb_attuale none none = (0, 0, 0)
      ∧ get_instant_status spec_profile ⟨0, 0, 0⟩ = .SPENTO
      ∧ ∀ (buffer : List InstantLabel) (l : InstantLabel),
          l ∈ buffer_append BUFFER_SIZE buffer l := by
  refine ⟨by decide, by decide, fun buffer l => ?_⟩
  unfold buffer_append
  by_cases h : BUFFER_SIZE < (buffer ++ [l]).length
  · have hle : (buffer ++ [l]).length - BUFFER_SIZE ≤ buffer.length := by
      simp only [List.length_append, List.length_singleton] at h ⊢
      have : 0 < BUFFER_SIZE := by decide
      omega
    simp only [h, if_true, List.drop_append_of_le_length hle]
    simp
  · rw [if_neg (by simpa using h)]
    simp

/-- `STATE_PERSISTENCE_SECONDS = 0.5` in `monitor_semaforo_TCS.py`
(`monitor_semaforo.py` uses 2.5); the gate lemmas below hold for any
window, so they take it as a parameter. -/
def STATE_PERSISTENCE_SECONDS : ℚ := 1 / 2

/-- Publication state of the `monitor_semaforo_TCS.py` main loop:
`stato_pubblicato` starts as Python `None`, and
`last_published_change_time` is updated only when the composite differs
from the published state or a publish happens. -/
structure TCSGateState where
  stato_pubblicato : Option CompositeState
  last_published_change_time : ℚ
deriving DecidableEq, Repr

/-- The `stato_da_pubblicare` computation of the TCS main loop
(lines 449–462): non-SPENTO composites pass through; SPENTO passes only
once `now - last_published_change_time > persist`, otherwise the previous
published state is kept. -/
def tcs_stato_da_pubblicare (persist : ℚ) (s : TCSGateState)
    (stato_composito : CompositeState) (now : ℚ) : Option CompositeState :=
  if stato_composito ≠ .SPENTO then some stato_composito
  else if persist < now - s.last_published_change_time then some .SPENTO
  else s.stato_pubblicato

/-- One pass of the TCS publication logic.  The second component is `some
payload` when the cycle publishes (the `stato_da_pubblicare !=
stato_pubblicato` branch, which also resets the change timer to `now`),
`none` when the cycle publishes nothing.  The embedded loop body collapses
the several `time.time()` calls of one cycle into the single instant
`now`. -/
def tcs_gate_step (persist : ℚ) (s : TCSGateState)
    (stato_composito : CompositeState) (now : ℚ) :
    TCSGateState × Option (Option CompositeState) :=
  let toPub := tcs_stato_da_pubblicare persist s stato_composito now
  let lastC :=
    if stato_composito ≠ .SPENTO ∧ some stato_composito ≠ s.stato_pubblicato
    then now else s.last_published_change_time
  if toPub ≠ s.stato_pubblicato then
    (⟨toPub, now⟩, some toPub)
  else
    (⟨s.stato_pubblicato, lastC⟩, none)

/-- Publication state of the `monitor_semaforo.py` main loop:
`last_seen_color_time` is reset on every cycle whose confirmed state is not
"SPENTO". -/
structure CamGateState where
  stato_pubblicato : Option String
  last_seen_color_time : ℚ
deriving DecidableEq, Repr

/-- One pass of the camera publication logic (`monitor_semaforo.py` lines
124–145): an active confirmed state resets `last_seen_color_time` and is
published immediately; "SPENTO" is published only once
`now - last_seen_color_time > persist`. -/
def cam_gate_step (persist : ℚ) (s : CamGateState)
    (stato_confermato : String) (now : ℚ) :
    CamGateState × Option (Option String) :=
  let lastSeen :=
    if stato_confermato ≠ "SPENTO" then now else s.last_seen_color_time
  let toPub :=
    if stato_confermato ≠ "SPENTO" then some stato_confermato
    else if persist < now - s.last_seen_color_time then some "SPENTO"
    else s.stato_pubblicato
  if toPub ≠ s.stato_pubblicato then
    (⟨toPub, lastSeen⟩, some toPub)
  else
    (⟨s.stato_pubblicato, lastSeen⟩, none)

theorem tcs_step_active (persist : ℚ) (s : TCSGateState)
    (c : CompositeState) (now : ℚ) (hc : c ≠ .SPENTO) :
    (tcs_gate_step persist s c now).1.stato_pubblicato = some c := by
  simp only [tcs_gate_step, tcs_stato_da_pubblicare, hc, ne_eq,
    not_false_eq_true, if_true, ite_not]
  by_cases h : some c = s.stato_pubblicato <;> simp [h, hc]

theorem tcs_step_off_within (persist : ℚ) (s : TCSGateState) (now : ℚ)
    (h : now - s.last_published_change_time ≤ persist) :
    tcs_gate_step persist s .SPENTO now = (s, none) := by
  simp [tcs_gate_step, tcs_stato_da_pubblicare, not_lt.mpr h]

theorem tcs_step_off_grace (persist : ℚ) (s : TCSGateState) (now : ℚ)
    (h : persist < now - s.last_published_change_time) :
    (tcs_gate_step persist s .SPENTO now).1.stato_pubblicato = some .SPENTO := by
  simp only [tcs_gate_step, tcs_stato_da_pubblicare, h, ne_eq, if_true,
    not_true_eq_false, if_false, ite_not, ite_true]
  by_cases hp : some CompositeState.SPENTO = s.stato_pubblicato <;> simp [h, hp]

theorem tcs_step_off_no_event (persist : ℚ) (s : TCSGateState) (now : ℚ)
    (h : s.stato_pubblicato = some .SPENTO) :
    (tcs_gate_step persist s .SPENTO now).2 = none := by
  simp only [tcs_gate_step, tcs_stato_da_pubblicare, h]
  by_cases hg : persist < now - s.last_published_change_time <;> simp [hg]

theorem tcs_step_active_no_event (persist : ℚ) (t : TCSGateState)
    (c : CompositeState) (now : ℚ) (hc : c ≠ .SPENTO)
    (h : t.stato_pubblicato = some c) :
    (tcs_gate_step persist t c now).2 = none := by
  simp [tcs_gate_step, tcs_stato_da_pubblicare, hc, h]

theorem cam_step_active (persist : ℚ) (s : CamGateState)
    (c : String) (now : ℚ) (hc : c ≠ "SPENTO") :
    (cam_gate_step persist s c now).1.stato_pubblicato = some c
      ∧ (cam_gate_step persist s c now).1.last_seen_color_time = now := by
  simp only [cam_gate_step, hc, ne_eq, not_false_eq_true, if_true, ite_not]
  by_cases h : some c = s.stato_pubblicato <;> simp [h, hc]

theorem cam_step_off_within (persist : ℚ) (s : CamGateState) (now : ℚ)
    (h : now - s.last_seen_color_time ≤ persist) :
    cam_gate_step persist s "SPENTO" now = (s, none) := by
  simp [cam_gate_step, not_lt.mpr h]

theorem cam_step_off_grace (persist : ℚ) (s : CamGateState) (now : ℚ)
    (h : persist < now - s.last_seen_color_time) :
    (cam_gate_step persist s "SPENTO" now).1.stato_pubblicato = some "SPENTO"
      ∧ (cam_gate_step persist s "SPENTO" now).1.last_seen_color_time
          = s.last_seen_color_time := by
  simp only [cam_gate_step, h, ne_eq, if_true, not_true_eq_false, if_false,
    ite_not, ite_true]
  by_cases hp : some "SPENTO" = s.stato_pubblicato <;> simp [h, hp]

theorem cam_step_off_no_event (persist : ℚ) (s : CamGateState) (now : ℚ)
    (h : s.stato_pubblicato = some "SPENTO") :
    (cam_gate_step persist s "SPENTO" now).2 = none := by
  simp only [cam_gate_step, h]
  by_cases hg : persist < now - s.last_seen_color_time <;> simp [hg]

/-- C4 counterexample, on the TCS variant with its 0.5 s window: starting
from VERDE published at time 0, a cycle at time 10 confirms composite VERDE
(state unchanged, timer not reset), and the very next cycle at time 10.1 —
only 0.1 s after that active reading — already publishes SPENTO, because
the code measures the window from the last *published change* (time 0),
not from the last active-color reading. -/
theorem C4_persistence_counterexample :
    tcs_gate_step STATE_PERSISTENCE_SECONDS ⟨some .VERDE, 0⟩ .VERDE 10
        = (⟨some .VERDE, 0⟩, none)
      ∧ (101 : ℚ) / 10 - 10 ≤ STATE_PERSISTENCE_SECONDS
      ∧ tcs_gate_step STATE_PERSISTENCE_SECONDS ⟨some .VERDE, 0⟩ .SPENTO (101 / 10)
          = (⟨some .SPENTO, 101 / 10⟩, some (some .SPENTO)) := by
  refine ⟨?_, by norm_num [STATE_PERSISTENCE_SECONDS], ?_⟩
  · simp [tcs_gate_step, tcs_stato_da_pubblicare]
  · have hgt : STATE_PERSISTENCE_SECONDS < (101 : ℚ) / 10 := by
      norm_num [STATE_PERSISTENCE_SECONDS]
    simp [tcs_gate_step, tcs_stato_da_pubblicare, hgt]

/-- C4 (amended): in `monitor_semaforo.py` the claim holds as stated — an
active confirmed state is published immediately and resets the last-active
timestamp, and SPENTO replaces the published state exactly when the time
since the last active reading exceeds the window.  In
`monitor_semaforo_TCS.py` the immediate-publish half holds, but the window
is measured from the last published-state change instead of the last
active reading. -/
theorem C4_persistence_gate (persist now : ℚ) :
    (∀ (s : CamGateState) (c : String), c ≠ "SPENTO" →
        (cam_gate_step persist s c now).1.stato_pubblicato = some c
          ∧ (cam_gate_step persist s c now).1.last_seen_color_time = now)
      ∧ (∀ s : CamGateState, now - s.last_seen_color_time ≤ persist →
          (cam_gate_step persist s "SPENTO" now).1.stato_pubblicato
            = s.stato_pubblicato)
      ∧ (∀ s : CamGateState, persist < now - s.last_seen_color_time →
          (cam_gate_step persist s "SPENTO" now).1.stato_pubblicato
            = some "SPENTO")
      ∧ (∀ (s : TCSGateState) (c : CompositeState), c ≠ .SPENTO →
          (tcs_gate_step persist s c now).1.stato_pubblicato = some c)
      ∧ (∀ s : TCSGateState, now - s.last_published_change_time ≤ persist →
          (tcs_gate_step persist s .SPENTO now).1.stato_pubblicato
            = s.stato_pubblicato)
      ∧ (∀ s : TCSGateState, persist < now - s.last_published_change_time →
          (tcs_gate_step persist s .SPENTO now).1.stato_pubblicato
            = some .SPENTO) :=
  ⟨fun s c hc => cam_step_active persist s c now hc,
   fun s h => by rw [cam_step_off_within persist s now h],
   fun s h => (cam_step_off_grace persist s now h).1,
   fun s c hc => tcs_step_active persist s c now hc,
   fun s h => by rw [tcs_step_off_within persist s now h],
   fun s h => tcs_step_off_grace persist s now h⟩

theorem C4_persistence_gate_witness :
    (cam_gate_step 1 ⟨some "VERDE", 0⟩ "ROSSO" 5).1.stato_pubblicato = some "ROSSO"
      ∧ (tcs_gate_step 1 ⟨some .VERDE, 0⟩ .SPENTO 5).1.stato_pubblicato
          = some .SPENTO :=
  ⟨((C4_persistence_gate 1 5).1 ⟨some "VERDE", 0⟩ "ROSSO" (by decide)).1,
   (C4_persistence_gate 1 5).2.2.2.2.2 ⟨some .VERDE, 0⟩ (by norm_num)⟩

/-- C7: publishing is change-driven on both variants.  A cycle emits an
event exactly when the state to publish differs from the already-published
state; after the transition into SPENTO past the grace window, further
SPENTO composites emit nothing, and a repeated active composite emits
nothing after its first publication. -/
theorem C7_publish_on_change (persist : ℚ) :
    (∀ (s : TCSGateState) (c : CompositeState) (now : ℚ),
        (tcs_gate_step persist s c now).2 = none ↔
          tcs_stato_da_pubblicare persist s c now = s.stato_pubblicato)
      ∧ (∀ (s : TCSGateState) (now now2 : ℚ),
          persist < now - s.last_published_change_time →
          (s.stato_pubblicato ≠ some .SPENTO →
              (tcs_gate_step persist s .SPENTO now).2 = some (some .SPENTO))
            ∧ (tcs_gate_step persist
                (tcs_gate_step persist s .SPENTO now).1 .SPENTO now2).2 = none)
      ∧ (∀ (s : TCSGateState) (c : CompositeState) (now now2 : ℚ),
          c ≠ .SPENTO →
          (tcs_gate_step persist
            (tcs_gate_step persist s c now).1 c now2).2 = none)
      ∧ (∀ (s : CamGateState) (now now2 : ℚ),
          persist < now - s.last_seen_color_time →
          (cam_gate_step persist
            (cam_gate_step persist s "SPENTO" now).1 "SPENTO" now2).2 = none) := by
  refine ⟨fun s c now => ?_, fun s now now2 hg => ⟨fun hne => ?_, ?_⟩,
    fun s c now now2 hc => ?_, fun s now now2 hg => ?_⟩
  · simp only [tcs_gate_step]
    by_cases h : tcs_stato_da_pubblicare persist s c now = s.stato_pubblicato <;>
      simp [h]
  · simp [tcs_gate_step, tcs_stato_da_pubblicare, hg, Ne.symm hne]
  · exact tcs_step_off_no_event persist _ now2
      (tcs_step_off_grace persist s now hg)
  · exact tcs_step_active_no_event persist _ c now2 hc
      (tcs_step_active persist s c now hc)
  · exact cam_step_off_no_event persist _ now2
      (cam_step_off_grace persist s now hg).1

theorem C7_publish_on_change_witness :
    (tcs_gate_step 1 ⟨some .VERDE, 0⟩ .SPENTO 5).2 = some (some .SPENTO)
      ∧ (tcs_gate_step 1
          (tcs_gate_step 1 ⟨some .VERDE, 0⟩ .SPENTO 5).1 .SPENTO 6).2 = none :=
  ⟨(((C7_publish_on_change 1).2.1 ⟨some .VERDE, 0⟩ 5 6 (by norm_num)).1
      (by simp)),
   ((C7_publish_on_change 1).2.1 ⟨some .VERDE, 0⟩ 5 6 (by norm_num)).2⟩

/-- One non-blank line of the offline queue file. `valid` is a line that
parses as JSON carrying `message.machine_id`; `corrupt` is a line that
fails to parse or lacks the machine id (the code prints a warning and
moves on). -/
inductive QueueEntry : Type
  | valid (machine_id : String) (payload : String)
  | corrupt (payload : String)
deriving DecidableEq, Repr

/-- A broker publication made during queue replay: each valid entry goes
once to `bma/{machine_id}/semaforo/stato` and once to the shared trigger
topic `bma/cambiostato`, both qos=1 retained. -/
inductive PublishedMessage : Type
  | status (machine_id : String) (payload : String)
  | trigger (payload : String)
deriving DecidableEq, Repr

/-- The replay loop of `process_offline_queue` (lines 271–316): valid
entries are published to the two topics in file order, corrupt entries are
skipped. -/
def replay_publishes : List QueueEntry → List PublishedMessage
  | [] => []
  | .valid mid p :: rest => .status mid p :: .trigger p :: replay_publishes rest
  | .corrupt _ :: rest => replay_publishes rest

/-- `process_offline_queue` on an existing queue file, given as its list of
non-blank lines: the first component is the sequence of broker
publications, the second the file contents afterwards.  After the loop the
code unconditionally rewrites the file empty (`f.write('')`) — publish
return codes are never checked and per-entry failures are swallowed by the
inner `except`; only an exception while opening/reading the file (the
outer `except`) leaves it untouched. -/
def process_offline_queue (entries : List QueueEntry) :
    List PublishedMessage × List QueueEntry :=
  (replay_publishes entries, [])

/-- The payloads that reached the per-machine status topic, in order. -/
def status_payloads (msgs : List PublishedMessage) : List String :=
  msgs.filterMap fun m =>
    match m with
    | .status _ p => some p
    | .trigger _ => none

/-- The payloads that reached the shared trigger topic, in order. -/
def trigger_payloads (msgs : List PublishedMessage) : List String :=
  msgs.filterMap fun m =>
    match m with
    | .status _ _ => none
    | .trigger p => some p

/-- The payloads of the well-formed entries of the queue file, in order. -/
def valid_payloads (entries : List QueueEntry) : List String :=
  entries.filterMap fun e =>
    match e with
    | .valid _ p => some p
    | .corrupt _ => none

/-- C5 counterexample: a queue holding a single corrupt entry is replayed
into zero publications, yet the file is truncated all the same — the entry
is lost, not left intact for retry, so truncation is not conditioned on
every entry having been accepted by the broker. -/
theorem C5_offline_queue_counterexample :
    process_offline_queue [QueueEntry.corrupt "garbled"] = ([], []) := rfl

/-- C5 (amended): replay publishes exactly the well-formed entries, in
enqueue order, once on the status topic and once on the trigger topic, and
then empties the file unconditionally; entries that fail to parse (or
whose publish raises) are skipped and lost — only a failure reading the
file leaves it intact.  In particular, when every queued entry is
well-formed, the broker receives exactly those N payloads in order and the
queue file is empty afterwards. -/
theorem C5_offline_queue_replay (entries : List QueueEntry) :
    status_payloads (process_offline_queue entries).1 = valid_payloads entries
      ∧ trigger_payloads (process_offline_queue entries).1 = valid_payloads entries
      ∧ (process_offline_queue entries).2 = [] := by
  refine ⟨?_, ?_, rfl⟩ <;>
  · induction entries with
    | nil => rfl
    | cons e rest ih =>
        cases e <;>
          simp [process_offline_queue, replay_publishes, status_payloads,
            trigger_payloads, valid_payloads] at ih ⊢ <;>
          simpa [process_offline_queue, status_payloads, trigger_payloads,
            valid_payloads] using ih

/-- `max(detected, key=lambda x: x['percentage'])`: Python's `max` keeps
the first element among ties, replacing the running best only on a
strictly greater key. -/
def maxByPercentage (best : String × ℚ) : List (String × ℚ) → String × ℚ
  | [] => best
  | x :: rest => maxByPercentage (if best.2 < x.2 then x else best) rest

/-- The `detected` list built by the loop of `get_visual_status`
(`monitor_semaforo.py` lines 46–61).  A color range is given as
`(name, percentage, threshold_percent)`, with the threshold `none` when the
`threshold_percent` key is missing from the configuration, in which case
the whole call returns "ERRORE_CONFIG".  A color joins `detected` iff its
name is not "SPENTO" and its percentage reaches its own threshold. -/
def build_detected : List (String × ℚ × Option ℚ) → Option (List (String × ℚ))
  | [] => some []
  | (_, _, none) :: _ => none
  | (name, perc, some thresh) :: rest =>
      (build_detected rest).map fun ds =>
        (if name ≠ "SPENTO" ∧ thresh ≤ perc then [(name, perc)] else []) ++ ds

/-- `get_visual_status` from `monitor_semaforo.py`, abstracted over the
per-color coverage percentages the OpenCV mask computation produces: no
candidate yields "SPENTO", otherwise the candidate of maximal
percentage wins. -/
def get_visual_status (color_ranges : List (String × ℚ × Option ℚ)) : String :=
  match build_detected color_ranges with
  | none => "ERRORE_CONFIG"
  | some [] => "SPENTO"
  | some (d :: ds) => (maxByPercentage d ds).1

/-- A fully-configured range list (every color has a threshold). -/
def with_thresholds (colors : List (String × ℚ × ℚ)) :
    List (String × ℚ × Option ℚ) :=
  colors.map fun c => (c.1, c.2.1, some c.2.2)

/-- The candidates in the sense of the spec: non-off colors whose
percentage reaches their own threshold, in configuration order. -/
def candidates (colors : List (String × ℚ × ℚ)) : List (String × ℚ) :=
  colors.filterMap fun c =>
    if c.1 ≠ "SPENTO" ∧ c.2.2 ≤ c.2.1 then some (c.1, c.2.1) else none

theorem maxByPercentage_spec (d : String × ℚ) (ds : List (String × ℚ)) :
    (maxByPercentage d ds = d ∨ maxByPercentage d ds ∈ ds)
      ∧ d.2 ≤ (maxByPercentage d ds).2
      ∧ ∀ q ∈ ds, q.2 ≤ (maxByPercentage d ds).2 := by
  induction ds generalizing d with
  | nil => exact ⟨Or.inl rfl, le_refl _, by simp⟩
  | cons x rest ih =>
      obtain ⟨hmem, hbest, hall⟩ := ih (if d.2 < x.2 then x else d)
      refine ⟨?_, ?_, ?_⟩
      · rcases hmem with h | h
        · rw [maxByPercentage, h]
          split_ifs with hx
          · exact Or.inr (List.mem_cons_self x rest)
          · exact Or.inl rfl
        · exact Or.inr (List.mem_cons_of_mem x h)
      · refine le_trans ?_ hbest
        split_ifs with hx
        · exact le_of_lt hx
        · exact le_refl _
      · intro q hq
        rcases List.mem_cons.mp hq with h | h
        · subst h
          refine le_trans ?_ hbest
          split_ifs with hx
          · exact le_refl _
          · exact not_lt.mp hx
        · exact hall q h

theorem build_detected_with_thresholds (colors : List (String × ℚ × ℚ)) :
    build_detected (with_thresholds colors) = some (candidates colors) := by
  induction colors with
  | nil => rfl
  | cons c rest ih =>
      obtain ⟨name, perc, thresh⟩ := c
      by_cases h : name ≠ "SPENTO" ∧ thresh ≤ perc <;>
        simp [with_thresholds, build_detected, candidates, h] at ih ⊢ <;>
        simpa [with_thresholds, candidates] using ih

/-- C9: in camera-threshold mode a non-off color is a candidate exactly
when its percentage reaches its own threshold (`build_detected` returns
precisely the `candidates` list); with no candidate the label is "SPENTO",
and otherwise the label is a candidate of maximal percentage. -/
theorem C9_camera_threshold (colors : List (String × ℚ × ℚ)) :
    build_detected (with_thresholds colors) = some (candidates colors)
      ∧ (candidates colors = [] → get_visual_status (with_thresholds colors) = "SPENTO")
      ∧ (candidates colors ≠ [] →
          ∃ pr ∈ candidates colors,
            get_visual_status (with_thresholds colors) = pr.1
              ∧ ∀ q ∈ candidates colors, q.2 ≤ pr.2) := by
  refine ⟨build_detected_with_thresholds colors, fun h => ?_, fun h => ?_⟩
  · rw [get_visual_status, build_detected_with_thresholds colors, h]
  · match hc : candidates colors with
    | [] => exact absurd hc h
    | d :: ds =>
        obtain ⟨hmem, hbest, hall⟩ := maxByPercentage_spec d ds
        refine ⟨maxByPercentage d ds, ?_, ?_, ?_⟩
        · rcases hmem with h1 | h1
          · rw [h1]; exact List.mem_cons_self d ds
          · exact List.mem_cons_of_mem d h1
        · rw [get_visual_status, build_detected_with_thresholds colors, hc]
        · intro q hq
          rcases List.mem_cons.mp hq with h1 | h1
          · subst h1; exact hbest
          · exact hall q h1

theorem C9_camera_threshold_witness :
    candidates [("VERDE", (50 : ℚ), (30 : ℚ)), ("ROSSO", 10, 30)] ≠ []
      ∧ get_visual_status
          (with_thresholds [("VERDE", (50 : ℚ), (30 : ℚ)), ("ROSSO", 10, 30)])
          = "VERDE" := by
  have hcand : candidates [("VERDE", (50 : ℚ), (30 : ℚ)), ("ROSSO", 10, 30)]
      = [("VERDE", (50 : ℚ))] := by
    decide
  refine ⟨by simp [hcand], ?_⟩
  obtain ⟨pr, hmem, heq, -⟩ :=
    (C9_camera_threshold [("VERDE", 50, 30), ("ROSSO", 10, 30)]).2.2
      (by simp [hcand])
  rw [hcand] at hmem
  simp only [List.mem_singleton] at hmem
  rw [heq, hmem]

end BmaMonitor
